import Mathlib

/-!
Verification of the dagwatch DAG-monitoring utility.

The Python sources (dagwatch/condor.py, dagwatch/dagwatch.py,
dagwatch/__main__.py) are shallowly embedded below.  External effects
(scheduler queries, history queries, subprocess calls, sleeps) are
modelled by oracle parameters and explicit event traces; job records and
status dictionaries are association lists; Python exceptions become an
inductive `Fault` type threaded through `Except`.
-/

namespace Dagwatch

/-- Faults raised and caught by the condor interaction layer, modelling
the Python exception types appearing in dagwatch/condor.py. -/
inductive Fault where
  | ioError (msg : String)
  | keyError
  | runtimeError (msg : String)
  | valueError
  | calledProcessError
  | indexError
  | keyboardInterrupt
deriving DecidableEq

/-- A value stored in a DAG status dictionary: an integer count, or the
dash sentinel string that `get_dag_status` stores when a count cannot be
obtained as an integer. -/
inductive StatusVal where
  | int (n : Int)
  | dash
deriving DecidableEq

/-- Decidable equality for fallible results, so that concrete runs of
the embedded functions can be evaluated by `decide`. -/
instance {ε α : Type} [DecidableEq ε] [DecidableEq α] :
    DecidableEq (Except ε α) := fun a b =>
  match a, b with
  | .ok x, .ok y =>
    if h : x = y then isTrue (congrArg Except.ok h)
    else isFalse (fun hc => h (Except.ok.inj hc))
  | .error x, .error y =>
    if h : x = y then isTrue (congrArg Except.error h)
    else isFalse (fun hc => h (Except.error.inj hc))
  | .ok _, .error _ => isFalse (fun hc => Except.noConfusion hc)
  | .error _, .ok _ => isFalse (fun hc => Except.noConfusion hc)

/-- A job record (ClassAd), modelled as an association list from
attribute names to integer values. -/
abbrev Record := List (String × Int)

/-- Attribute access `job[c]` on a job record, `none` where Python would
raise `KeyError`. -/
def rlookup : Record → String → Option Int
  | [], _ => none
  | (k, v) :: rest, key => if k = key then some v else rlookup rest key

/-- A status dictionary as built by `get_dag_status`. -/
abbrev Dict := List (String × StatusVal)

/-- Key access `status[s]` on a status dictionary. -/
def dlookup : Dict → String → Option StatusVal
  | [], _ => none
  | (k, v) :: rest, key => if k = key then some v else dlookup rest key

/-- Python `str.startswith`. -/
def pyStartsWith (s pre : String) : Bool :=
  pre.toList.isPrefixOf s.toList

/-- Python `str.lower`. -/
def pyLower (s : String) : String :=
  ⟨s.toList.map Char.toLower⟩

/-- Accumulating decimal digit parser: `none` on a non-digit. -/
def parseNatAux : List Char → Nat → Option Nat
  | [], acc => some acc
  | c :: rest, acc =>
    if c.isDigit then parseNatAux rest (acc * 10 + (c.toNat - 48)) else none

/-- Python `int(v)` on a string: optional surrounding whitespace, an
optional sign, then decimal digits; `none` models ValueError. -/
def pyToInt (s : String) : Option Int :=
  match (((s.toList.dropWhile Char.isWhitespace).reverse.dropWhile
      Char.isWhitespace).reverse) with
  | [] => none
  | '-' :: rest =>
    match rest with
    | [] => none
    | _ => (parseNatAux rest 0).map (fun n => -(n : Int))
  | '+' :: rest =>
    match rest with
    | [] => none
    | _ => (parseNatAux rest 0).map (fun n => (n : Int))
  | l => (parseNatAux l 0).map (fun n => (n : Int))

/-- Split a character list at every occurrence of `sep`, keeping empty
segments, as Python `str.split(sep)` does. -/
def splitOnChar (sep : Char) : List Char → List (List Char)
  | [] => [[]]
  | c :: rest =>
    match splitOnChar sep rest with
    | [] => [[]]
    | x :: xs => if c = sep then [] :: x :: xs else (c :: x) :: xs

/-- Split a character list at every character satisfying `p`, keeping
empty segments. -/
def splitOnPred (p : Char → Bool) : List Char → List (List Char)
  | [] => [[]]
  | c :: rest =>
    match splitOnPred p rest with
    | [] => [[]]
    | x :: xs => if p c then [] :: x :: xs else (c :: x) :: xs

/-- Python `s.rstrip(c)` for a single character. -/
def pyRstrip (s : String) (c : Char) : String :=
  ⟨(s.toList.reverse.dropWhile (fun d => d = c)).reverse⟩

/-- Helper for the Python substring test: does `pat` occur as a prefix of
any suffix of the list. -/
def containsAux (pat : List Char) : List Char → Bool
  | [] => pat.isPrefixOf []
  | c :: rest => pat.isPrefixOf (c :: rest) || containsAux pat rest

/-- Python `sub in s` substring membership on strings. -/
def strContains (s sub : String) : Bool :=
  containsAux sub.toList s.toList

/-- Python `line.split()`: split on whitespace runs, dropping empties. -/
def pySplitWs (line : String) : List String :=
  ((splitOnPred Char.isWhitespace line.toList).filter
    (fun t => ¬ t = [])).map (fun t => ⟨t⟩)

/-- JOB_STATUS from condor.py: the fixed seven-value status enumeration. -/
def JOB_STATUS : List String :=
  ["Unexpanded", "Idle", "Running", "Removed", "Completed", "Held",
   "Submission error"]

/-- JOB_STATUS_MAP from condor.py: lower-cased status name to its index
in JOB_STATUS. -/
def JOB_STATUS_MAP (name : String) : Option Nat :=
  (JOB_STATUS.map (fun v => pyLower v)).findIdx? (fun v => v == name)

/-- The integer status code for a named status, as compared against
`JobStatus` attribute values. -/
def jobStatusCode (name : String) : Option Int :=
  (JOB_STATUS_MAP name).map (fun k => (k : Int))

/-- The aggregate state names queried by `get_dag_status`. -/
def states : List String :=
  ["total", "done", "queued", "ready", "unready", "failed"]

/-- ClassAd name of an aggregate state: `'DAG_Nodes%s' % s.title()`. -/
def classadOf (s : String) : String := "DAG_Nodes" ++ s.capitalize

/-- The list of aggregate ClassAd names queried by `get_dag_status`. -/
def classads : List String := states.map classadOf

/-- find_job from condor.py: a single-job queue lookup.  `jobs` is the
result of the underlying `find_jobs` scheduler query and `creprStr`
stands for the `%r` rendering of the constraint set used in the error
messages.  Zero matches raise the no-jobs RuntimeError, two or more
matches raise the multiple-jobs RuntimeError. -/
def find_job (creprStr : String) (jobs : List Record) : Except Fault Record :=
  match jobs with
  | [] => .error (.runtimeError ("No jobs found matching constraints " ++ creprStr))
  | [j] => .ok j
  | _ :: _ :: _ =>
      .error (.runtimeError ("Multiple jobs found matching constraints " ++ creprStr))

/-- get_job_status from condor.py, at the call sites used by
`get_dag_status` where the argument is already a ClassAd: reads the
`JobStatus` attribute, raising `KeyError` when absent. -/
def get_job_status (job : Record) : Except Fault Int :=
  match rlookup job "JobStatus" with
  | some s => .ok s
  | none => .error .keyError

/-- The value stored for one aggregate state in the ACTIVE branch of
`get_dag_status`: `status[s] = job[c]`, falling back on `KeyError` to
`int(check_output(condor_q ... -autoformat c))` (modelled by the
`condorQ` oracle), and to the dash sentinel when that conversion raises
ValueError or CalledProcessError. -/
def fieldVal (job : Record) (condorQ : String → Except Fault Int)
    (s : String) : Except Fault StatusVal :=
  match rlookup job (classadOf s) with
  | some v => .ok (.int v)
  | none =>
    match condorQ (classadOf s) with
    | .ok v => .ok (.int v)
    | .error .valueError => .ok .dash
    | .error .calledProcessError => .ok .dash
    | .error e => .error e

/-- The `for s, c in zip(states, classads)` loop of the ACTIVE branch,
building the aggregate part of the status dictionary in order. -/
def fillCounts (job : Record) (condorQ : String → Except Fault Int) :
    List String → Except Fault Dict
  | [] => .ok []
  | s :: rest =>
    match fieldVal job condorQ s with
    | .error e => .error e
    | .ok v =>
      match fillCounts job condorQ rest with
      | .error e => .error e
      | .ok d => .ok ((s, v) :: d)

/-- The per-node classification loop of the ACTIVE branch: each node's
status code increments at most one of the held / running / idle
counters, via the JOB_STATUS_MAP comparisons of condor.py. -/
def classifyNodes : List Record → Except Fault (Nat × Nat × Nat)
  | [] => .ok (0, 0, 0)
  | node :: rest =>
    match get_job_status node with
    | .error e => .error e
    | .ok s =>
      match classifyNodes rest with
      | .error e => .error e
      | .ok (h, r, i) =>
        if some s = jobStatusCode "held" then .ok (h + 1, r, i)
        else if some s = jobStatusCode "running" then .ok (h, r + 1, i)
        else if some s = jobStatusCode "idle" then .ok (h, r, i + 1)
        else .ok (h, r, i)

/-- get_condor_history_shell from condor.py: parse the whitespace
separated tabular stdout of the out-of-process history query into
records, zipping each line's values with the requested ClassAd names.
The command construction side effects are abstracted; `output` is the
raw stdout. -/
def get_condor_history_shell (classadList : List String) (output : String) :
    List (List (String × String)) :=
  let lines := (splitOnChar '\n' (pyRstrip output '\n').toList).map
    (fun l => (⟨l⟩ : String))
  lines.map (fun line => List.zip classadList (pySplitWs line))

/-- The `dict((k, int(v)) for k, v in job.iteritems())` conversion after
the shell history fallback: parses every value as an integer, raising
ValueError on the first unparseable one. -/
def convInt : List (String × String) → Except Fault Record
  | [] => .ok []
  | (k, v) :: rest =>
    match pyToInt v with
    | none => .error .valueError
    | some n =>
      match convInt rest with
      | .error e => .error e
      | .ok r => .ok ((k, n) :: r)

/-- The shell-fallback path of the TERMINATED branch: take the first
parsed record (`[0]`, IndexError if none) and convert its values to
integers. -/
def shellJobRecord (output : String) : Except Fault Record :=
  match (get_condor_history_shell (classads ++ ["ExitCode"]) output).head? with
  | none => .error .indexError
  | some job => convInt job

/-- Events observable in the embedding: scheduler queries, history
queries, the shell history fallback, whole status polls, sleeps,
scheduler reconnection, and generator yields. -/
inductive Ev where
  | liveQuery
  | histQuery
  | shellQuery
  | poll
  | sleep (n : Nat)
  | reconnect
  | yieldSt (d : Dict)
deriving DecidableEq

/-- The external world for one `get_dag_status` call: the live-queue
single-job lookup result, the per-field condor_q fallback, the DAG's
child node records, the successive history-query attempt results, and
the stdout of the shell history fallback. -/
structure SchedEnv where
  liveJob : Except Fault Record
  condorQ : String → Except Fault Int
  nodes : List Record
  hist : Nat → Except Fault Record
  shellOut : String

/-- The staged history lookup of the TERMINATED branch of
`get_dag_status`: attempt the archive query; on IOError retry once
immediately; on KeyError sleep 10 and retry once; on a RuntimeError
whose lower-cased message contains timeout or cowardly fall back to the
shell history query; any other fault propagates.  Returns the obtained
record (or fault) together with the event trace. -/
def histAttempts (env : SchedEnv) : Except Fault Record × List Ev :=
  match env.hist 0 with
  | .ok job => (.ok job, [.histQuery])
  | .error (.ioError _) => (env.hist 1, [.histQuery, .histQuery])
  | .error .keyError => (env.hist 1, [.histQuery, .sleep 10, .histQuery])
  | .error (.runtimeError m) =>
    if strContains (pyLower m) "timeout" || strContains (pyLower m) "cowardly" then
      (shellJobRecord env.shellOut, [.histQuery, .shellQuery])
    else
      (.error (.runtimeError m), [.histQuery])
  | .error e => (.error e, [.histQuery])

/-- Construction of the terminal status dictionary from the archive
record: `history = dict((s, job[c]) ...)`, each missing ClassAd raising
KeyError. -/
def histDict (job : Record) : List String → Except Fault Dict
  | [] => .ok []
  | s :: rest =>
    match rlookup job (classadOf s) with
    | none => .error .keyError
    | some v =>
      match histDict job rest with
      | .error e => .error e
      | .ok d => .ok ((s, StatusVal.int v) :: d)

/-- The terminal status dictionary: the six aggregate fields from the
archive record, then `exitcode` from its `ExitCode`, then
`held = running = idle = 0`. -/
def mkHistory (job : Record) : Except Fault Dict :=
  match histDict job states with
  | .error e => .error e
  | .ok base =>
    match rlookup job "ExitCode" with
    | none => .error .keyError
    | some ec =>
      .ok (base ++ [("exitcode", .int ec), ("held", .int 0),
                    ("running", .int 0), ("idle", .int 0)])

/-- get_dag_status from condor.py.  On a successful live-queue lookup
(the ACTIVE branch) it builds the aggregate counts and, when `detailed`,
appends the held / running / idle node classification.  When the lookup
raises the no-jobs RuntimeError (the TERMINATED branch) it sleeps 1 and
runs the staged history lookup; any other RuntimeError or other fault
propagates.  Returns the status (or fault) with the event trace. -/
def get_dag_status (env : SchedEnv) (detailed : Bool) :
    Except Fault Dict × List Ev :=
  match env.liveJob with
  | .ok job =>
    ((match fillCounts job env.condorQ states with
      | .error e => .error e
      | .ok status =>
        if detailed then
          match classifyNodes env.nodes with
          | .error e => .error e
          | .ok (h, r, i) =>
            .ok (status ++ [("held", .int (h : Int)), ("running", .int (r : Int)),
                            ("idle", .int (i : Int))])
        else .ok status),
     [.liveQuery])
  | .error (.runtimeError m) =>
    if pyStartsWith m "No jobs found" then
      ((match (histAttempts env).1 with
        | .ok job => mkHistory job
        | .error e => .error e),
       .liveQuery :: .sleep 1 :: (histAttempts env).2)
    else
      (.error (.runtimeError m), [.liveQuery])
  | .error e => (.error e, [.liveQuery])

/-- True when `'exitcode' in status`. -/
def hasExitcode (st : Dict) : Bool := (dlookup st "exitcode").isSome

/-- The body of one iteration of `iterate_dag_status`: call
`get_dag_status` (result `a1`); on IOError or KeyError sleep 1, discard
and recreate the scheduler connection, and call it once more (result
`a2`), where a retry IOError re-raises the original fault and any other
retry fault propagates itself.  Returns the status (or fault) with the
event trace. -/
def pollOnce (a1 a2 : Except Fault Dict) : Except Fault Dict × List Ev :=
  match a1 with
  | .ok st => (.ok st, [.poll])
  | .error e =>
    match e with
    | .ioError _ | .keyError =>
      ((match a2 with
        | .ok st => .ok st
        | .error (.ioError _) => .error e
        | .error e2 => .error e2),
       [.poll, .sleep 1, .reconnect, .poll])
    | _ => (.error e, [.poll])

/-- iterate_dag_status from condor.py as an event trace: poll, yield the
status, stop when it carries an exitcode, otherwise sleep the interval
and continue.  `a1 n` and `a2 n` are the first-attempt and retry results
of the n-th poll; a fault from the poll ends the generator with that
fault; `fuel` bounds unfolding. -/
def iterate_dag_status (a1 a2 : Nat → Except Fault Dict) (interval : Nat) :
    Nat → Nat → List Ev × Option Fault
  | 0, _ => ([], none)
  | fuel + 1, n =>
    match pollOnce (a1 n) (a2 n) with
    | (.error e, tr) => (tr, some e)
    | (.ok st, tr) =>
      if hasExitcode st then (tr ++ [.yieldSt st], none)
      else
        let next := iterate_dag_status a1 a2 interval fuel (n + 1)
        (tr ++ [.yieldSt st, .sleep interval] ++ next.1, next.2)

/-- NODE_STATES from dagwatch.py: the seven tracked display fields. -/
def NODE_STATES : List String :=
  ["unready", "ready", "idle", "running", "held", "failed", "done"]

/-- A formatted progress line, modelled as the list of the displayed
field values. -/
abbrev Line := List (Option StatusVal)

/-- The change-detection body of the watch loop: a line holding the
current values is emitted when any of the seven tracked fields differs
from the previous snapshot, otherwise nothing is emitted. -/
def reportStep (old job : Dict) : Option Line :=
  if NODE_STATES.any (fun s => decide (¬ dlookup job s = dlookup old s)) then
    some (NODE_STATES.map (fun s => dlookup job s))
  else none

/-- The initial previous-snapshot sentinel:
`old = dict((k, -1) for k in NODE_STATES)`. -/
def initOld : Dict := NODE_STATES.map (fun k => (k, StatusVal.int (-1)))

/-- The `for job in iterate_dag_status(...)` loop of watch_dag, with the
generator inlined: poll, emit a line on change, stop and return the
emitted lines together with the final snapshot's `exitcode` when the
snapshot is terminal, otherwise sleep the interval (where `intr n = true`
delivers a KeyboardInterrupt during that sleep) and continue. -/
def watchLoop (a1 a2 : Nat → Except Fault Dict) (intr : Nat → Bool)
    (interval : Nat) :
    Nat → Nat → Dict → List Line →
    Option (Except Fault (List Line × Option StatusVal))
  | 0, _, _, _ => none
  | fuel + 1, n, old, lines =>
    match (pollOnce (a1 n) (a2 n)).1 with
    | .error e => some (.error e)
    | .ok st =>
      let lines' := match reportStep old st with
        | some l => lines ++ [l]
        | none => lines
      if hasExitcode st then some (.ok (lines', dlookup st "exitcode"))
      else if intr n then some (.error .keyboardInterrupt)
      else watchLoop a1 a2 intr interval fuel (n + 1) st lines'

/-- watch_dag from dagwatch.py: first a single-job lookup for the DAG
header attributes (its fault propagates before any polling), then the
reporting loop over `iterate_dag_status`, returning the emitted lines
and the final snapshot's exitcode. -/
def watch_dag (creprStr : String) (headerJobs : List Record)
    (a1 a2 : Nat → Except Fault Dict) (intr : Nat → Bool)
    (interval fuel : Nat) :
    Option (Except Fault (List Line × Option StatusVal)) :=
  match find_job creprStr headerJobs with
  | .error e => some (.error e)
  | .ok _ => watchLoop a1 a2 intr interval fuel 0 initOld []

/-- The watch / exit logic of dagwatch/__main__.py: a KeyboardInterrupt
from watch_dag becomes exitcode 0, any other fault propagates
(abnormal termination), and an exitcode return gives the process that
exit status via `if exitcode: sys.exit(exitcode)`. -/
def dunder_main (r : Except Fault Int) : Except Fault Int :=
  match r with
  | .error .keyboardInterrupt => .ok 0
  | .error e => .error e
  | .ok ec => .ok (if ¬ ec = 0 then ec else 0)

/-- Recognizer for poll events, used to count query attempts. -/
def isPollEv : Ev → Bool
  | .poll => true
  | _ => false

/-- A well-formed displayed count value: present, and a non-negative
integer or the dash sentinel. -/
def wfVal : Option StatusVal → Bool
  | some .dash => true
  | some (.int n) => decide (0 ≤ n)
  | none => false

lemma pyStartsWith_append {s p : String} (r : String)
    (h : pyStartsWith s p = true) : pyStartsWith (s ++ r) p = true := by
  simp only [pyStartsWith, List.isPrefixOf_iff_prefix] at h ⊢
  have hd : (s ++ r).toList = s.toList ++ r.toList := rfl
  rw [hd]
  exact h.trans (List.prefix_append _ _)

lemma multi_msg_not_nojobs (r : String) :
    pyStartsWith ("Multiple jobs found matching constraints " ++ r)
      "No jobs found" = false := by
  rw [Bool.eq_false_iff]
  intro h
  simp only [pyStartsWith, List.isPrefixOf_iff_prefix] at h
  have e1 : ("Multiple jobs found matching constraints " ++ r).toList =
      'M' :: ("ultiple jobs found matching constraints ".toList ++ r.toList) := rfl
  have e2 : ("No jobs found").toList = 'N' :: "o jobs found".toList := rfl
  rw [e1, e2] at h
  exact absurd (List.cons_prefix_cons.mp h).1 (by decide)

lemma wfVal_ne_neg_one {o : Option StatusVal} (h : wfVal o = true) :
    ¬ o = some (.int (-1)) := by
  intro hc
  subst hc
  exact absurd h (by decide)

/-- C7: find_job raises the no-jobs RuntimeError (message containing the
phrase No jobs found) when zero jobs match, raises the multiple-jobs
RuntimeError (a distinct message, one that the polling loop never
retries) when two or more match, and returns the job record when
exactly one matches. -/
theorem find_job_cardinality (creprStr : String) (jobs : List Record) :
    (jobs = [] →
      find_job creprStr jobs =
        .error (.runtimeError ("No jobs found matching constraints " ++ creprStr)) ∧
      pyStartsWith ("No jobs found matching constraints " ++ creprStr)
        "No jobs found" = true) ∧
    (2 ≤ jobs.length →
      find_job creprStr jobs =
        .error (.runtimeError ("Multiple jobs found matching constraints " ++ creprStr)) ∧
      pyStartsWith ("Multiple jobs found matching constraints " ++ creprStr)
        "No jobs found" = false ∧
      ∀ x, pollOnce
          (.error (.runtimeError ("Multiple jobs found matching constraints " ++ creprStr))) x =
        (.error (.runtimeError ("Multiple jobs found matching constraints " ++ creprStr)),
         [.poll])) ∧
    (∀ j, jobs = [j] → find_job creprStr jobs = .ok j) := by
  refine ⟨fun h0 => ?_, fun h2 => ?_, fun j hj => ?_⟩
  · subst h0
    exact ⟨rfl, pyStartsWith_append creprStr (by decide)⟩
  · match jobs, h2 with
    | _ :: _ :: _, _ =>
      exact ⟨rfl, multi_msg_not_nojobs creprStr, fun x => rfl⟩
  · subst hj
    rfl

theorem find_job_cardinality_witness :
    (find_job "ClusterId == 1234" ([] : List Record) =
      .error (.runtimeError "No jobs found matching constraints ClusterId == 1234") ∧
     pyStartsWith "No jobs found matching constraints ClusterId == 1234"
       "No jobs found" = true) ∧
    (find_job "ClusterId == 1234" [[("ClusterId", 1234)], [("ClusterId", 1234)]] =
      .error (.runtimeError "Multiple jobs found matching constraints ClusterId == 1234") ∧
     pyStartsWith "Multiple jobs found matching constraints ClusterId == 1234"
       "No jobs found" = false ∧
     ∀ x, pollOnce
        (.error (.runtimeError "Multiple jobs found matching constraints ClusterId == 1234")) x =
      (.error (.runtimeError "Multiple jobs found matching constraints ClusterId == 1234"),
       [.poll])) ∧
    find_job "ClusterId == 1234" [[("ClusterId", 1234)]] = .ok [("ClusterId", 1234)] :=
  ⟨(find_job_cardinality "ClusterId == 1234" []).1 rfl,
   (find_job_cardinality "ClusterId == 1234"
      [[("ClusterId", 1234)], [("ClusterId", 1234)]]).2.1 (by decide),
   (find_job_cardinality "ClusterId == 1234" [[("ClusterId", 1234)]]).2.2
      [("ClusterId", 1234)] rfl⟩

/-- C2: once a poll produces a snapshot carrying an exitcode, the
iteration yields that snapshot and stops on that same iteration: the
whole remaining trace is the poll's own trace followed by the yield,
with no further query and no interval sleep afterwards, for any
remaining fuel. -/
theorem terminal_snapshot_stops_iteration
    (a1 a2 : Nat → Except Fault Dict) (interval n fuel : Nat)
    (st : Dict) (tr : List Ev)
    (hp : pollOnce (a1 n) (a2 n) = (.ok st, tr))
    (hx : hasExitcode st = true) :
    iterate_dag_status a1 a2 interval (fuel + 1) n = (tr ++ [.yieldSt st], none) := by
  unfold iterate_dag_status
  rw [hp]
  simp [hx]

theorem terminal_snapshot_stops_iteration_witness :
    pollOnce ((fun _ => .ok [("exitcode", StatusVal.int 0)] : Nat → Except Fault Dict) 0)
        ((fun _ => .error .keyError : Nat → Except Fault Dict) 0) =
      (.ok [("exitcode", .int 0)], [.poll]) ∧
    hasExitcode [("exitcode", StatusVal.int 0)] = true ∧
    iterate_dag_status (fun _ => .ok [("exitcode", .int 0)])
        (fun _ => .error .keyError) 2 (3 + 1) 0 =
      ([Ev.poll] ++ [.yieldSt [("exitcode", .int 0)]], none) :=
  ⟨by decide, by decide,
   terminal_snapshot_stops_iteration (fun _ => .ok [("exitcode", .int 0)])
     (fun _ => .error .keyError) 2 0 3 [("exitcode", .int 0)] [.poll]
     (by decide) (by decide)⟩

/-- C3: when the first status query of a poll raises a transient
connectivity fault (an IOError), the loop body sleeps a fixed 1 time
unit, discards and recreates the scheduler connection, and retries
exactly once (the trace holds exactly two query events); a successful
retry yields its status, and a retry failing again with an IOError
propagates the original fault, not the new one. -/
theorem transient_fault_retry_once (m1 : String) (a2 : Except Fault Dict) :
    (pollOnce (.error (.ioError m1)) a2).2 = [.poll, .sleep 1, .reconnect, .poll] ∧
    ((pollOnce (.error (.ioError m1)) a2).2.countP isPollEv) = 2 ∧
    (∀ st, a2 = .ok st → (pollOnce (.error (.ioError m1)) a2).1 = .ok st) ∧
    (∀ m2, a2 = .error (.ioError m2) →
      (pollOnce (.error (.ioError m1)) a2).1 = .error (.ioError m1)) := by
  refine ⟨?_, ?_, fun st hst => ?_, fun m2 hm2 => ?_⟩
  · cases a2 with
    | ok st => rfl
    | error e => cases e <;> rfl
  · cases a2 with
    | ok st => rfl
    | error e => cases e <;> rfl
  · subst hst; rfl
  · subst hm2; rfl

theorem transient_fault_retry_once_witness :
    (pollOnce (.error (.ioError "connection dropped"))
        (.error (.ioError "still unreachable"))).2 =
      [.poll, .sleep 1, .reconnect, .poll] ∧
    ((pollOnce (.error (.ioError "connection dropped"))
        (.error (.ioError "still unreachable"))).2.countP isPollEv) = 2 ∧
    (pollOnce (.error (.ioError "connection dropped"))
        (.error (.ioError "still unreachable"))).1 =
      .error (.ioError "connection dropped") :=
  ⟨(transient_fault_retry_once "connection dropped"
      (.error (.ioError "still unreachable"))).1,
   (transient_fault_retry_once "connection dropped"
      (.error (.ioError "still unreachable"))).2.1,
   (transient_fault_retry_once "connection dropped"
      (.error (.ioError "still unreachable"))).2.2.2 "still unreachable" rfl⟩

/-- C1: for every previous snapshot and every current snapshot (with the
seven tracked fields present, as every produced snapshot has them), the
reporter emits exactly one line, holding the current values, when at
least one of the seven tracked fields differs, and emits nothing when
all seven are equal (differences in other fields such as total or queued
being invisible to it); and against the all-fields -1 sentinel, any
snapshot whose displayed counts are non-negative integers or the dash
sentinel always produces exactly one line. -/
theorem reporter_emits_iff :
    (∀ old cur : Dict,
      (∀ s ∈ NODE_STATES, (dlookup old s).isSome = true) →
      (∀ s ∈ NODE_STATES, (dlookup cur s).isSome = true) →
      ((∃ s ∈ NODE_STATES, ¬ dlookup cur s = dlookup old s) →
        reportStep old cur = some (NODE_STATES.map (fun s => dlookup cur s))) ∧
      ((∀ s ∈ NODE_STATES, dlookup cur s = dlookup old s) →
        reportStep old cur = none)) ∧
    (∀ cur : Dict,
      (∀ s ∈ NODE_STATES, wfVal (dlookup cur s) = true) →
      reportStep initOld cur = some (NODE_STATES.map (fun s => dlookup cur s))) := by
  constructor
  · intro old cur _ _
    constructor
    · rintro ⟨s, hs, hne⟩
      simp only [reportStep]
      rw [if_pos (List.any_eq_true.mpr ⟨s, hs, decide_eq_true hne⟩)]
    · intro hall
      simp only [reportStep]
      rw [if_neg]
      intro h
      obtain ⟨s, hs, hp⟩ := List.any_eq_true.mp h
      exact (of_decide_eq_true hp) (hall s hs)
  · intro cur hwf
    have h0 : dlookup initOld "unready" = some (.int (-1)) := by decide
    have hu : ¬ dlookup cur "unready" = dlookup initOld "unready" := by
      rw [h0]
      exact wfVal_ne_neg_one (hwf "unready" (by decide))
    simp only [reportStep]
    rw [if_pos (List.any_eq_true.mpr ⟨"unready", by decide, decide_eq_true hu⟩)]

theorem reporter_emits_iff_witness :
    reportStep
        [("unready", .int 0), ("ready", .int 0), ("idle", .int 1), ("running", .int 0),
         ("held", .int 0), ("failed", .int 0), ("done", .int 3), ("total", .int 10),
         ("queued", .int 1)]
        [("unready", .int 0), ("ready", .int 0), ("idle", .int 0), ("running", .int 0),
         ("held", .int 0), ("failed", .int 0), ("done", .int 4), ("total", .int 10),
         ("queued", .int 0)] =
      some (NODE_STATES.map (fun s => dlookup
        [("unready", .int 0), ("ready", .int 0), ("idle", .int 0), ("running", .int 0),
         ("held", .int 0), ("failed", .int 0), ("done", .int 4), ("total", .int 10),
         ("queued", .int 0)] s)) ∧
    reportStep
        [("unready", .int 0), ("ready", .int 0), ("idle", .int 1), ("running", .int 0),
         ("held", .int 0), ("failed", .int 0), ("done", .int 3), ("total", .int 10),
         ("queued", .int 1)]
        [("unready", .int 0), ("ready", .int 0), ("idle", .int 1), ("running", .int 0),
         ("held", .int 0), ("failed", .int 0), ("done", .int 3), ("total", .int 11),
         ("queued", .int 2)] = none ∧
    reportStep initOld
        [("unready", .int 0), ("ready", .int 0), ("idle", .int 0), ("running", .int 0),
         ("held", .int 0), ("failed", .int 0), ("done", .int 0), ("total", .int 10),
         ("queued", .dash)] =
      some (NODE_STATES.map (fun s => dlookup
        [("unready", .int 0), ("ready", .int 0), ("idle", .int 0), ("running", .int 0),
         ("held", .int 0), ("failed", .int 0), ("done", .int 0), ("total", .int 10),
         ("queued", .dash)] s)) :=
  ⟨(reporter_emits_iff.1
      [("unready", .int 0), ("ready", .int 0), ("idle", .int 1), ("running", .int 0),
       ("held", .int 0), ("failed", .int 0), ("done", .int 3), ("total", .int 10),
       ("queued", .int 1)]
      [("unready", .int 0), ("ready", .int 0), ("idle", .int 0), ("running", .int 0),
       ("held", .int 0), ("failed", .int 0), ("done", .int 4), ("total", .int 10),
       ("queued", .int 0)]
      (by decide) (by decide)).1 ⟨"done", by decide, by decide⟩,
   (reporter_emits_iff.1
      [("unready", .int 0), ("ready", .int 0), ("idle", .int 1), ("running", .int 0),
       ("held", .int 0), ("failed", .int 0), ("done", .int 3), ("total", .int 10),
       ("queued", .int 1)]
      [("unready", .int 0), ("ready", .int 0), ("idle", .int 1), ("running", .int 0),
       ("held", .int 0), ("failed", .int 0), ("done", .int 3), ("total", .int 11),
       ("queued", .int 2)]
      (by decide) (by decide)).2 (by decide),
   reporter_emits_iff.2
      [("unready", .int 0), ("ready", .int 0), ("idle", .int 0), ("running", .int 0),
       ("held", .int 0), ("failed", .int 0), ("done", .int 0), ("total", .int 10),
       ("queued", .dash)] (by decide)⟩

/-- C10: watch_dag performs a single-job header lookup before the first
poll; when the DAG identifier matches zero live-queue jobs at startup,
the no-jobs fault propagates before any polling, independent of every
poll oracle (so no status poll and no archive lookup takes place), and
the process terminates abnormally with that fault instead of treating
the DAG as a terminated DAG. -/
theorem missing_dag_at_startup (creprStr : String) :
    find_job creprStr ([] : List Record) =
      .error (.runtimeError ("No jobs found matching constraints " ++ creprStr)) ∧
    (∀ (a1 a2 : Nat → Except Fault Dict) (intr : Nat → Bool) (interval fuel : Nat),
      watch_dag creprStr [] a1 a2 intr interval fuel =
        some (.error (.runtimeError ("No jobs found matching constraints " ++ creprStr)))) ∧
    dunder_main (.error (.runtimeError ("No jobs found matching constraints " ++ creprStr))) =
      .error (.runtimeError ("No jobs found matching constraints " ++ creprStr)) :=
  ⟨rfl, fun _ _ _ _ _ => rfl, rfl⟩

/-- C8: a user interrupt raised while the watch is blocked, whether
during the interval sleep or during a status query, surfaces as the
KeyboardInterrupt fault from the watch loop, and the main module
converts it to the clean exit code 0 rather than propagating it. -/
theorem interrupt_exits_zero (hdr : Record) (a1 a2 : Nat → Except Fault Dict)
    (intr : Nat → Bool) (creprStr : String) (interval fuel : Nat) (st : Dict)
    (hst : a1 0 = .ok st) (hterm : hasExitcode st = false) (hintr : intr 0 = true) :
    watch_dag creprStr [hdr] a1 a2 intr interval (fuel + 1) =
      some (.error .keyboardInterrupt) ∧
    watch_dag creprStr [hdr] (fun _ => .error .keyboardInterrupt) a2 intr interval
        (fuel + 1) =
      some (.error .keyboardInterrupt) ∧
    dunder_main (.error .keyboardInterrupt) = .ok 0 := by
  refine ⟨?_, ?_, rfl⟩
  · simp only [watch_dag, find_job, watchLoop, pollOnce, hst, hterm, hintr]
    simp
  · simp only [watch_dag, find_job, watchLoop, pollOnce]

theorem interrupt_exits_zero_witness :
    ((fun _ => .ok [("done", StatusVal.int 0)] : Nat → Except Fault Dict) 0 =
      .ok [("done", .int 0)]) ∧
    hasExitcode [("done", StatusVal.int 0)] = false ∧
    ((fun _ => true : Nat → Bool) 0 = true) ∧
    watch_dag "ClusterId == 1234" [[("ClusterId", 1234)]]
        (fun _ => .ok [("done", .int 0)]) (fun _ => .error .keyError)
        (fun _ => true) 2 (0 + 1) =
      some (.error .keyboardInterrupt) ∧
    dunder_main (.error .keyboardInterrupt) = .ok 0 :=
  ⟨rfl, by decide, rfl,
   (interrupt_exits_zero [("ClusterId", 1234)] (fun _ => .ok [("done", .int 0)])
      (fun _ => .error .keyError) (fun _ => true) "ClusterId == 1234" 2 0
      [("done", .int 0)] rfl (by decide) rfl).1,
   (interrupt_exits_zero [("ClusterId", 1234)] (fun _ => .ok [("done", .int 0)])
      (fun _ => .error .keyError) (fun _ => true) "ClusterId == 1234" 2 0
      [("done", .int 0)] rfl (by decide) rfl).2.2⟩

/-- A count field is obtainable as an integer or as the dash sentinel:
either present on the live record, or the condor_q fallback returns an
integer or fails with one of the two caught conversion faults. -/
def fieldObtainable (rec : Record) (condorQ : String → Except Fault Int)
    (s : String) : Bool :=
  (rlookup rec (classadOf s)).isSome ||
  (match condorQ (classadOf s) with
   | .ok _ => true
   | .error .valueError => true
   | .error .calledProcessError => true
   | _ => false)

lemma classad_total : classadOf "total" = "DAG_NodesTotal" := by decide

lemma classad_done : classadOf "done" = "DAG_NodesDone" := by decide

lemma classad_queued : classadOf "queued" = "DAG_NodesQueued" := by decide

lemma classad_ready : classadOf "ready" = "DAG_NodesReady" := by decide

lemma classad_unready : classadOf "unready" = "DAG_NodesUnready" := by decide

lemma classad_failed : classadOf "failed" = "DAG_NodesFailed" := by decide

lemma jsc_held : jobStatusCode "held" = some 5 := by decide

lemma jsc_running : jobStatusCode "running" = some 2 := by decide

lemma jsc_idle : jobStatusCode "idle" = some 1 := by decide

lemma dlookup_append_left {d e : Dict} {k : String} {v : StatusVal}
    (h : dlookup d k = some v) : dlookup (d ++ e) k = some v := by
  induction d with
  | nil => exact absurd h (by simp [dlookup])
  | cons p rest ih =>
    obtain ⟨k', v'⟩ := p
    by_cases hk : k' = k
    · simpa [dlookup, hk] using h
    · simp only [dlookup, if_neg hk, List.cons_append] at h ⊢
      exact ih h

lemma fieldVal_ok_of_obtainable {rec : Record} {cq : String → Except Fault Int}
    {s : String} (h : fieldObtainable rec cq s = true) :
    ∃ v, fieldVal rec cq s = .ok v := by
  unfold fieldObtainable at h
  unfold fieldVal
  cases hr : rlookup rec (classadOf s) with
  | some v => exact ⟨.int v, rfl⟩
  | none =>
    rw [hr] at h
    simp only [Option.isSome_none, Bool.false_or] at h
    cases hq : cq (classadOf s) with
    | ok n => exact ⟨.int n, rfl⟩
    | error e =>
      rw [hq] at h
      cases e with
      | valueError => exact ⟨.dash, rfl⟩
      | calledProcessError => exact ⟨.dash, rfl⟩
      | ioError m => exact absurd h (by simp)
      | keyError => exact absurd h (by simp)
      | runtimeError m => exact absurd h (by simp)
      | indexError => exact absurd h (by simp)
      | keyboardInterrupt => exact absurd h (by simp)

lemma fillCounts_ok (rec : Record) (cq : String → Except Fault Int)
    (L : List String) (h : ∀ s ∈ L, ∃ v, fieldVal rec cq s = .ok v) :
    ∃ d, fillCounts rec cq L = .ok d ∧
      ∀ s ∈ L, ∀ v, fieldVal rec cq s = .ok v → dlookup d s = some v := by
  induction L with
  | nil => exact ⟨[], rfl, by simp⟩
  | cons s rest ih =>
    obtain ⟨v0, hv0⟩ := h s (by simp)
    obtain ⟨d, hd, hds⟩ := ih (fun x hx => h x (by simp [hx]))
    refine ⟨(s, v0) :: d, ?_, ?_⟩
    · simp only [fillCounts, hv0, hd]
    · intro x hx v hv
      by_cases hxs : x = s
      · subst hxs
        rw [hv0] at hv
        cases hv
        simp [dlookup]
      · rcases List.mem_cons.mp hx with hh | hxr
        · exact absurd hh hxs
        · simp only [dlookup]
          rw [if_neg (fun hc => hxs hc.symm)]
          exact hds x hxr v hv

lemma classifyNodes_spec (nodes : List Record)
    (h : ∀ nd ∈ nodes, (rlookup nd "JobStatus").isSome = true) :
    classifyNodes nodes =
      .ok (nodes.countP (fun nd => rlookup nd "JobStatus" == some 5),
           nodes.countP (fun nd => rlookup nd "JobStatus" == some 2),
           nodes.countP (fun nd => rlookup nd "JobStatus" == some 1)) := by
  induction nodes with
  | nil => rfl
  | cons nd rest ih =>
    have hnd := h nd (by simp)
    have hrest : ∀ x ∈ rest, (rlookup x "JobStatus").isSome = true :=
      fun x hx => h x (by simp [hx])
    obtain ⟨s, hs⟩ := Option.isSome_iff_exists.mp hnd
    simp only [classifyNodes, get_job_status, hs, ih hrest, jsc_held, jsc_running,
      jsc_idle, List.countP_cons]
    by_cases e5 : s = (5 : Int)
    · subst e5
      simp [hs]
    · by_cases e2 : s = (2 : Int)
      · subst e2
        simp [hs]
      · by_cases e1 : s = (1 : Int)
        · subst e1
          simp [hs]
        · simp [hs, e5, e2, e1, Option.some.injEq]

/-- C4: when the live-queue lookup raises the no-jobs fault and the
archive lookup returns a record holding the six aggregate fields and
ExitCode, get_dag_status returns the terminal status whose held, running
and idle fields are 0 and whose exitcode equals the archive ExitCode;
a driver loop poll returning a snapshot with that exitcode makes
watch_dag return it, and the process exit status equals it. -/
theorem terminated_dag_exitcode (env : SchedEnv) (rec : Record) (m : String)
    (vt vd vq vr vu vf ec : Int)
    (hl : env.liveJob = .error (.runtimeError m))
    (hm : pyStartsWith m "No jobs found" = true)
    (hh : env.hist 0 = .ok rec)
    (h1 : rlookup rec "DAG_NodesTotal" = some vt)
    (h2 : rlookup rec "DAG_NodesDone" = some vd)
    (h3 : rlookup rec "DAG_NodesQueued" = some vq)
    (h4 : rlookup rec "DAG_NodesReady" = some vr)
    (h5 : rlookup rec "DAG_NodesUnready" = some vu)
    (h6 : rlookup rec "DAG_NodesFailed" = some vf)
    (h7 : rlookup rec "ExitCode" = some ec) :
    get_dag_status env true =
      (.ok [("total", .int vt), ("done", .int vd), ("queued", .int vq),
            ("ready", .int vr), ("unready", .int vu), ("failed", .int vf),
            ("exitcode", .int ec), ("held", .int 0), ("running", .int 0),
            ("idle", .int 0)],
       [.liveQuery, .sleep 1, .histQuery]) ∧
    (∀ (a1 a2 : Nat → Except Fault Dict) (intr : Nat → Bool)
       (creprStr : String) (interval fuel : Nat) (hdr : Record) (st : Dict),
      a1 0 = .ok st → dlookup st "exitcode" = some (.int ec) →
      ∃ lines, watch_dag creprStr [hdr] a1 a2 intr interval (fuel + 1) =
        some (.ok (lines, some (.int ec)))) ∧
    dunder_main (.ok ec) = .ok ec := by
  refine ⟨?_, ?_, ?_⟩
  · simp only [get_dag_status, hl, hm, if_true, histAttempts, hh, mkHistory,
      histDict, states, classad_total, classad_done, classad_queued,
      classad_ready, classad_unready, classad_failed, h1, h2, h3, h4, h5, h6, h7]
    rfl
  · intro a1 a2 intr creprStr interval fuel hdr st hst hx
    have hex : hasExitcode st = true := by
      unfold hasExitcode
      rw [hx]
      rfl
    refine ⟨match reportStep initOld st with | some l => [l] | none => [], ?_⟩
    simp only [watch_dag, find_job, watchLoop, pollOnce, hst, hex, hx, if_true]
    cases hrs : reportStep initOld st <;> simp [hrs]
  · unfold dunder_main
    by_cases hec : ec = 0
    · subst hec
      rfl
    · simp [hec]

theorem terminated_dag_exitcode_witness :
    get_dag_status
      { liveJob := .error (.runtimeError "No jobs found matching constraints ClusterId == 1234"),
        condorQ := fun _ => .error .valueError,
        nodes := [],
        hist := fun _ => .ok [("DAG_NodesTotal", 10), ("DAG_NodesDone", 10),
          ("DAG_NodesQueued", 0), ("DAG_NodesReady", 0), ("DAG_NodesUnready", 0),
          ("DAG_NodesFailed", 0), ("ExitCode", 1)],
        shellOut := "" } true =
      (.ok [("total", .int 10), ("done", .int 10), ("queued", .int 0),
            ("ready", .int 0), ("unready", .int 0), ("failed", .int 0),
            ("exitcode", .int 1), ("held", .int 0), ("running", .int 0),
            ("idle", .int 0)],
       [.liveQuery, .sleep 1, .histQuery]) ∧
    (∃ lines, watch_dag "ClusterId == 1234" [[("ClusterId", 1234)]]
        (fun _ => .ok [("exitcode", .int 1)]) (fun _ => .error .keyError)
        (fun _ => false) 2 (0 + 1) =
      some (.ok (lines, some (.int 1)))) ∧
    dunder_main (.ok 1) = .ok 1 := by
  have h := terminated_dag_exitcode
    { liveJob := .error (.runtimeError "No jobs found matching constraints ClusterId == 1234"),
      condorQ := fun _ => .error .valueError,
      nodes := [],
      hist := fun _ => .ok [("DAG_NodesTotal", 10), ("DAG_NodesDone", 10),
        ("DAG_NodesQueued", 0), ("DAG_NodesReady", 0), ("DAG_NodesUnready", 0),
        ("DAG_NodesFailed", 0), ("ExitCode", 1)],
      shellOut := "" }
    [("DAG_NodesTotal", 10), ("DAG_NodesDone", 10), ("DAG_NodesQueued", 0),
     ("DAG_NodesReady", 0), ("DAG_NodesUnready", 0), ("DAG_NodesFailed", 0),
     ("ExitCode", 1)]
    "No jobs found matching constraints ClusterId == 1234"
    10 10 0 0 0 0 1 rfl (by decide) rfl (by decide) (by decide) (by decide)
    (by decide) (by decide) (by decide) (by decide)
  exact ⟨h.1, h.2.1 (fun _ => .ok [("exitcode", .int 1)]) (fun _ => .error .keyError)
    (fun _ => false) "ClusterId == 1234" 2 0 [("ClusterId", 1234)]
    [("exitcode", .int 1)] rfl (by decide), h.2.2⟩

/-- C5: on a successful live-queue lookup returning the six aggregate
fields, get_dag_status classifies each child node by its status code
into at most one of the held, running and idle buckets (status codes 5,
2 and 1, the Held, Running and Idle entries of the status enumeration)
and returns the nine-field status merging the aggregate record with the
three bucket counts, with no exitcode entry. -/
theorem active_status_merges_counts (env : SchedEnv) (rec : Record)
    (vt vd vq vr vu vf : Int)
    (hl : env.liveJob = .ok rec)
    (h1 : rlookup rec "DAG_NodesTotal" = some vt)
    (h2 : rlookup rec "DAG_NodesDone" = some vd)
    (h3 : rlookup rec "DAG_NodesQueued" = some vq)
    (h4 : rlookup rec "DAG_NodesReady" = some vr)
    (h5 : rlookup rec "DAG_NodesUnready" = some vu)
    (h6 : rlookup rec "DAG_NodesFailed" = some vf)
    (hn : ∀ nd ∈ env.nodes, (rlookup nd "JobStatus").isSome = true) :
    get_dag_status env true =
      (.ok [("total", .int vt), ("done", .int vd), ("queued", .int vq),
            ("ready", .int vr), ("unready", .int vu), ("failed", .int vf),
            ("held", .int ((env.nodes.countP
              (fun nd => rlookup nd "JobStatus" == some 5) : Nat) : Int)),
            ("running", .int ((env.nodes.countP
              (fun nd => rlookup nd "JobStatus" == some 2) : Nat) : Int)),
            ("idle", .int ((env.nodes.countP
              (fun nd => rlookup nd "JobStatus" == some 1) : Nat) : Int))],
       [.liveQuery]) ∧
    dlookup [("total", .int vt), ("done", .int vd), ("queued", .int vq),
            ("ready", .int vr), ("unready", .int vu), ("failed", .int vf),
            ("held", .int ((env.nodes.countP
              (fun nd => rlookup nd "JobStatus" == some 5) : Nat) : Int)),
            ("running", .int ((env.nodes.countP
              (fun nd => rlookup nd "JobStatus" == some 2) : Nat) : Int)),
            ("idle", .int ((env.nodes.countP
              (fun nd => rlookup nd "JobStatus" == some 1) : Nat) : Int))]
      "exitcode" = none := by
  constructor
  · simp only [get_dag_status, hl, fillCounts, fieldVal, states, classad_total,
      classad_done, classad_queued, classad_ready, classad_unready,
      classad_failed, h1, h2, h3, h4, h5, h6, classifyNodes_spec env.nodes hn,
      if_true]
    rfl
  · rfl

theorem active_status_merges_counts_witness :
    get_dag_status
      { liveJob := .ok [("DAG_NodesTotal", 10), ("DAG_NodesDone", 3),
          ("DAG_NodesQueued", 5), ("DAG_NodesReady", 1), ("DAG_NodesUnready", 1),
          ("DAG_NodesFailed", 0)],
        condorQ := fun _ => .error .valueError,
        nodes := [[("JobStatus", 5)], [("JobStatus", 2)], [("JobStatus", 2)],
                  [("JobStatus", 1)], [("JobStatus", 1)]],
        hist := fun _ => .error .keyError,
        shellOut := "" } true =
      (.ok [("total", .int 10), ("done", .int 3), ("queued", .int 5),
            ("ready", .int 1), ("unready", .int 1), ("failed", .int 0),
            ("held", .int 1), ("running", .int 2), ("idle", .int 2)],
       [.liveQuery]) := by
  have h := active_status_merges_counts
    { liveJob := .ok [("DAG_NodesTotal", 10), ("DAG_NodesDone", 3),
        ("DAG_NodesQueued", 5), ("DAG_NodesReady", 1), ("DAG_NodesUnready", 1),
        ("DAG_NodesFailed", 0)],
      condorQ := fun _ => .error .valueError,
      nodes := [[("JobStatus", 5)], [("JobStatus", 2)], [("JobStatus", 2)],
                [("JobStatus", 1)], [("JobStatus", 1)]],
      hist := fun _ => .error .keyError,
      shellOut := "" }
    [("DAG_NodesTotal", 10), ("DAG_NodesDone", 3), ("DAG_NodesQueued", 5),
     ("DAG_NodesReady", 1), ("DAG_NodesUnready", 1), ("DAG_NodesFailed", 0)]
    10 3 5 1 1 0 rfl (by decide) (by decide) (by decide) (by decide) (by decide)
    (by decide) (by decide)
  rw [h.1]
  decide

/-- C9: when every aggregate count field is obtainable (present on the
live record, or recovered through the per-field fallback, possibly as
the dash sentinel) and every node carries a JobStatus, get_dag_status
succeeds rather than raising, and each aggregate field of the snapshot
is: the live record value when present, the fallback integer when the
field is absent but the fallback parses, and the unknown dash sentinel
when the field is absent and the fallback fails with a caught conversion
fault -- every other field keeping its looked-up value. -/
theorem unparseable_field_dash (env : SchedEnv) (rec : Record)
    (hl : env.liveJob = .ok rec)
    (hobt : ∀ s ∈ states, fieldObtainable rec env.condorQ s = true)
    (hn : ∀ nd ∈ env.nodes, (rlookup nd "JobStatus").isSome = true) :
    ∃ D, get_dag_status env true = (.ok D, [.liveQuery]) ∧
      ∀ s ∈ states,
        (rlookup rec (classadOf s) = none →
          (env.condorQ (classadOf s) = .error .valueError ∨
           env.condorQ (classadOf s) = .error .calledProcessError) →
          dlookup D s = some .dash) ∧
        (∀ v, rlookup rec (classadOf s) = some v → dlookup D s = some (.int v)) ∧
        (rlookup rec (classadOf s) = none → ∀ n,
          env.condorQ (classadOf s) = .ok n → dlookup D s = some (.int n)) := by
  obtain ⟨d, hd, hds⟩ := fillCounts_ok rec env.condorQ states
    (fun s hs => fieldVal_ok_of_obtainable (hobt s hs))
  have hcl := classifyNodes_spec env.nodes hn
  refine ⟨d ++ [("held", .int ((env.nodes.countP
      (fun nd => rlookup nd "JobStatus" == some 5) : Nat) : Int)),
    ("running", .int ((env.nodes.countP
      (fun nd => rlookup nd "JobStatus" == some 2) : Nat) : Int)),
    ("idle", .int ((env.nodes.countP
      (fun nd => rlookup nd "JobStatus" == some 1) : Nat) : Int))], ?_, ?_⟩
  · simp only [get_dag_status, hl, hd, hcl, if_true]
  · intro s hs
    refine ⟨fun hnone hq => ?_, fun v hv => ?_, fun hnone n hq => ?_⟩
    · apply dlookup_append_left
      apply hds s hs
      unfold fieldVal
      rw [hnone]
      rcases hq with hq | hq <;> rw [hq]
    · apply dlookup_append_left
      apply hds s hs
      unfold fieldVal
      rw [hv]
    · apply dlookup_append_left
      apply hds s hs
      unfold fieldVal
      rw [hnone, hq]

theorem unparseable_field_dash_witness :
    ∃ D, get_dag_status
      { liveJob := .ok [("DAG_NodesTotal", 10), ("DAG_NodesDone", 3),
          ("DAG_NodesQueued", 5), ("DAG_NodesReady", 1), ("DAG_NodesUnready", 1)],
        condorQ := fun _ => .error .valueError,
        nodes := [],
        hist := fun _ => .error .keyError,
        shellOut := "" } true = (.ok D, [.liveQuery]) ∧
      ∀ s ∈ states,
        (rlookup [("DAG_NodesTotal", 10), ("DAG_NodesDone", 3),
            ("DAG_NodesQueued", 5), ("DAG_NodesReady", 1),
            ("DAG_NodesUnready", 1)] (classadOf s) = none →
          ((fun _ => .error .valueError : String → Except Fault Int) (classadOf s) =
             .error .valueError ∨
           (fun _ => .error .valueError : String → Except Fault Int) (classadOf s) =
             .error .calledProcessError) →
          dlookup D s = some .dash) ∧
        (∀ v, rlookup [("DAG_NodesTotal", 10), ("DAG_NodesDone", 3),
            ("DAG_NodesQueued", 5), ("DAG_NodesReady", 1),
            ("DAG_NodesUnready", 1)] (classadOf s) = some v →
          dlookup D s = some (.int v)) ∧
        (rlookup [("DAG_NodesTotal", 10), ("DAG_NodesDone", 3),
            ("DAG_NodesQueued", 5), ("DAG_NodesReady", 1),
            ("DAG_NodesUnready", 1)] (classadOf s) = none → ∀ n,
          (fun _ => .error .valueError : String → Except Fault Int) (classadOf s) =
            .ok n →
          dlookup D s = some (.int n)) :=
  unparseable_field_dash
    { liveJob := .ok [("DAG_NodesTotal", 10), ("DAG_NodesDone", 3),
        ("DAG_NodesQueued", 5), ("DAG_NodesReady", 1), ("DAG_NodesUnready", 1)],
      condorQ := fun _ => .error .valueError,
      nodes := [],
      hist := fun _ => .error .keyError,
      shellOut := "" }
    [("DAG_NodesTotal", 10), ("DAG_NodesDone", 3), ("DAG_NodesQueued", 5),
     ("DAG_NodesReady", 1), ("DAG_NodesUnready", 1)]
    rfl (by decide) (by decide)

/-- C6: in the TERMINATED branch the staged archive retry policy holds:
an IOError on the first archive attempt retries exactly once immediately
(two archive queries with nothing between), a KeyError waits 10 time
units and retries exactly once, a RuntimeError whose lower-cased message
contains timeout or cowardly switches to the out-of-process shell
history query whose whitespace-separated tabular output is parsed into
the same record shape, and any other fault propagates unchanged. -/
theorem history_retry_policy (env : SchedEnv) (m : String)
    (hl : env.liveJob = .error (.runtimeError m))
    (hm : pyStartsWith m "No jobs found" = true) :
    (∀ m1, env.hist 0 = .error (.ioError m1) →
      (get_dag_status env true).2 =
        [.liveQuery, .sleep 1, .histQuery, .histQuery] ∧
      (∀ job, env.hist 1 = .ok job →
        (get_dag_status env true).1 = mkHistory job) ∧
      (∀ e, env.hist 1 = .error e → (get_dag_status env true).1 = .error e)) ∧
    (env.hist 0 = .error .keyError →
      (get_dag_status env true).2 =
        [.liveQuery, .sleep 1, .histQuery, .sleep 10, .histQuery] ∧
      (∀ job, env.hist 1 = .ok job →
        (get_dag_status env true).1 = mkHistory job) ∧
      (∀ e, env.hist 1 = .error e → (get_dag_status env true).1 = .error e)) ∧
    (∀ m1, env.hist 0 = .error (.runtimeError m1) →
      (strContains (pyLower m1) "timeout" || strContains (pyLower m1) "cowardly") = true →
      (get_dag_status env true).2 =
        [.liveQuery, .sleep 1, .histQuery, .shellQuery] ∧
      (∀ job, shellJobRecord env.shellOut = .ok job →
        (get_dag_status env true).1 = mkHistory job) ∧
      (∀ e, shellJobRecord env.shellOut = .error e →
        (get_dag_status env true).1 = .error e)) ∧
    (∀ m1, env.hist 0 = .error (.runtimeError m1) →
      (strContains (pyLower m1) "timeout" || strContains (pyLower m1) "cowardly") = false →
      get_dag_status env true =
        (.error (.runtimeError m1), [.liveQuery, .sleep 1, .histQuery])) ∧
    (∀ e, env.hist 0 = .error e →
      (e = .valueError ∨ e = .calledProcessError ∨ e = .indexError ∨
       e = .keyboardInterrupt) →
      get_dag_status env true = (.error e, [.liveQuery, .sleep 1, .histQuery])) ∧
    get_condor_history_shell (classads ++ ["ExitCode"]) "10 3 5 1 1 0 1\n" =
      [[("DAG_NodesTotal", "10"), ("DAG_NodesDone", "3"), ("DAG_NodesQueued", "5"),
        ("DAG_NodesReady", "1"), ("DAG_NodesUnready", "1"), ("DAG_NodesFailed", "0"),
        ("ExitCode", "1")]] := by
  refine ⟨fun m1 h0 => ?_, fun h0 => ?_, fun m1 h0 hkw => ?_, fun m1 h0 hkw => ?_,
    fun e h0 he => ?_, by decide⟩
  · simp only [get_dag_status, hl, hm, if_true, histAttempts, h0]
    exact ⟨trivial, fun job hj => by rw [hj], fun e2 he2 => by rw [he2]⟩
  · simp only [get_dag_status, hl, hm, if_true, histAttempts, h0]
    exact ⟨trivial, fun job hj => by rw [hj], fun e2 he2 => by rw [he2]⟩
  · simp only [get_dag_status, hl, hm, if_true, histAttempts, h0, hkw]
    exact ⟨trivial, fun job hj => by rw [hj], fun e2 he2 => by rw [he2]⟩
  · simp only [get_dag_status, hl, hm, if_true, histAttempts, h0, hkw]
    rfl
  · rcases he with rfl | rfl | rfl | rfl <;>
      simp only [get_dag_status, hl, hm, if_true, histAttempts, h0]

theorem history_retry_policy_witness :
    ((get_dag_status
      { liveJob := .error (.runtimeError "No jobs found matching constraints ClusterId == 1234"),
        condorQ := fun _ => .error .valueError,
        nodes := [],
        hist := fun n => if n = 0 then
            .error (.runtimeError "Error: Timeout when trying to talk to the scheduler")
          else .error .keyError,
        shellOut := "10 3 5 1 1 0 1\n" } true).2 =
      [.liveQuery, .sleep 1, .histQuery, .shellQuery]) ∧
    (∀ job, shellJobRecord "10 3 5 1 1 0 1\n" = .ok job →
      (get_dag_status
        { liveJob := .error (.runtimeError "No jobs found matching constraints ClusterId == 1234"),
          condorQ := fun _ => .error .valueError,
          nodes := [],
          hist := fun n => if n = 0 then
              .error (.runtimeError "Error: Timeout when trying to talk to the scheduler")
            else .error .keyError,
          shellOut := "10 3 5 1 1 0 1\n" } true).1 = mkHistory job) ∧
    get_condor_history_shell (classads ++ ["ExitCode"]) "10 3 5 1 1 0 1\n" =
      [[("DAG_NodesTotal", "10"), ("DAG_NodesDone", "3"), ("DAG_NodesQueued", "5"),
        ("DAG_NodesReady", "1"), ("DAG_NodesUnready", "1"), ("DAG_NodesFailed", "0"),
        ("ExitCode", "1")]] := by
  have h := history_retry_policy
    { liveJob := .error (.runtimeError "No jobs found matching constraints ClusterId == 1234"),
      condorQ := fun _ => .error .valueError,
      nodes := [],
      hist := fun n => if n = 0 then
          .error (.runtimeError "Error: Timeout when trying to talk to the scheduler")
        else .error .keyError,
      shellOut := "10 3 5 1 1 0 1\n" }
    "No jobs found matching constraints ClusterId == 1234" rfl (by decide)
  have h3 := h.2.2.1 "Error: Timeout when trying to talk to the scheduler"
    (by decide) (by decide)
  exact ⟨h3.1, h3.2.1, h.2.2.2.2.2⟩

end Dagwatch
